import Mathlib

/-!
Verification of the GeoRaster point-cloud gridding engine
(QueryEngine/TableFunctions/SystemFunctions/os/GeoRaster.cpp).

Shallow embedding conventions:
* The C++ coordinate type `T` and value type `Z` (float/double) are both modelled
  as `ℚ`; floating-point arithmetic is modelled exactly.  Note that in `ℚ`
  division by zero yields `0` where C++ doubles would give inf/NaN; no theorem
  below is settled at such an input except through the explicit domain
  validation.
* `std::numeric_limits<Z>::lowest()` (the null sentinel) has no counterpart in
  `ℚ`, so the sentinel is carried as a field of the raster; theorems that need
  "every representable value is `≥` the sentinel" take it as a hypothesis.
* The dense `z_` vector is modelled as a total function `ℤ → ℚ`; all accesses
  the code performs are proved to stay inside `[0, num_bins)`.
* `distance_in_meters` (Shared/Utilities.hpp) is kept abstract as a function
  parameter `dist`.
* The C++ `double` → `int64_t` conversion truncates toward zero; `ratTrunc`
  below models it (it agrees with `floor` on the nonnegative ranges).
-/

namespace GeoRaster

/-- Truncation toward zero of a rational, modelling the C++ `double` → `int64_t`
conversion used when bin counts are stored. -/
def ratTrunc (q : ℚ) : ℤ := if 0 ≤ q then ⌊q⌋ else ⌈q⌉

/-- The list of integers `a, a+1, ..., b` (empty when `b < a`), modelling an
inclusive C++ `for` loop `for (i = a; i <= b; ++i)`. -/
def intRangeIncl (a b : ℤ) : List ℤ :=
  List.map (fun k : ℕ => a + (k : ℤ)) (List.range (b + 1 - a).toNat)

/-- The list of integers `0, 1, ..., n-1` (empty when `n ≤ 0`), modelling an
exclusive C++ `for` loop `for (i = 0; i < n; ++i)`. -/
def intRangeLt (n : ℤ) : List ℤ :=
  List.map (fun k : ℕ => (k : ℤ)) (List.range n.toNat)

/-- One input row: the `x`/`y` coordinate columns are read unconditionally by
the code, the `z` column has a per-row null test (`isNull`), modelled as
`Option ℚ`. -/
structure InputRow where
  x : ℚ
  y : ℚ
  z : Option ℚ
deriving DecidableEq

/-- The state of a `GeoRaster<T, Z>` object after construction.  Field names
follow the C++ members (without the trailing underscore). -/
structure Raster where
  bin_dim_meters : ℚ
  geographic_coords : Bool
  null_sentinel : ℚ
  x_min : ℚ
  x_max : ℚ
  y_min : ℚ
  y_max : ℚ
  x_range : ℚ
  y_range : ℚ
  x_meters_per_degree : ℚ
  y_meters_per_degree : ℚ
  num_x_bins : ℤ
  num_y_bins : ℤ
  num_bins : ℤ
  x_scale_input_to_bin : ℚ
  y_scale_input_to_bin : ℚ
  x_scale_bin_to_input : ℚ
  y_scale_bin_to_input : ℚ
  z : ℤ → ℚ

/-- Modelled from the spec: `get_x_bin` lives in GeoRaster.hpp, which is not
under src/; the spec gives `bin = floor((coord - min) * scale_input_to_bin)`. -/
def get_x_bin (r : Raster) (x : ℚ) : ℤ :=
  ⌊(x - r.x_min) * r.x_scale_input_to_bin⌋

/-- Modelled from the spec: `get_y_bin`, symmetric to `get_x_bin`. -/
def get_y_bin (r : Raster) (y : ℚ) : ℤ :=
  ⌊(y - r.y_min) * r.y_scale_input_to_bin⌋

/-- Modelled from the spec: `x_y_bin_to_bin_index` lives in GeoRaster.hpp, not
under src/; the spec says the dense buffer is "indexed by
`x_bin + y_bin * num_x_bins` (row-major, x varies fastest)". -/
def x_y_bin_to_bin_index (x_bin y_bin num_x_bins : ℤ) : ℤ :=
  x_bin + y_bin * num_x_bins

/-- Modelled from the spec: `is_bin_out_of_bounds` lives in GeoRaster.hpp, not
under src/; it is the out-of-range test on a bin pair used by
`offset_source_z_from_raster_z` ("returns null if the source bin is out of
range"). -/
def is_bin_out_of_bounds (r : Raster) (x_bin y_bin : ℤ) : Prop :=
  x_bin < 0 ∨ r.num_x_bins ≤ x_bin ∨ y_bin < 0 ∨ r.num_y_bins ≤ y_bin

instance (r : Raster) (x_bin y_bin : ℤ) : Decidable (is_bin_out_of_bounds r x_bin y_bin) := by
  unfold is_bin_out_of_bounds; infer_instance

/-- Modelled from the spec: `get_column_min_max` lives in Shared/Utilities.hpp,
not under src/; the spec says "scan the x and y input columns once for minimum
and maximum".  The `(0, 0)` result on an empty column is never used: the
data-derived constructor returns before calling it when the input is empty. -/
def get_column_min_max : List ℚ → ℚ × ℚ
  | [] => (0, 0)
  | a :: rest => (rest.foldl min a, rest.foldl max a)

/-- Model of `GeoRaster<T, Z>::align_bins_max_inclusive` (GeoRaster.cpp:144-152):
``min' = floor(min/d)*d``, ``max' = floor(max/d)*d + d`` on both axes,
returned as `(x_min, x_max, y_min, y_max)`. -/
def align_bins_max_inclusive (bin_dim_meters x_min x_max y_min y_max : ℚ) :
    ℚ × ℚ × ℚ × ℚ :=
  ((⌊x_min / bin_dim_meters⌋ : ℚ) * bin_dim_meters,
   (⌊x_max / bin_dim_meters⌋ : ℚ) * bin_dim_meters + bin_dim_meters,
   (⌊y_min / bin_dim_meters⌋ : ℚ) * bin_dim_meters,
   (⌊y_max / bin_dim_meters⌋ : ℚ) * bin_dim_meters + bin_dim_meters)

/-- Model of `GeoRaster<T, Z>::align_bins_max_exclusive` (GeoRaster.cpp:154-160):
``min' = floor(min/d)*d``, ``max' = ceil(max/d)*d`` on both axes. -/
def align_bins_max_exclusive (bin_dim_meters x_min x_max y_min y_max : ℚ) :
    ℚ × ℚ × ℚ × ℚ :=
  ((⌊x_min / bin_dim_meters⌋ : ℚ) * bin_dim_meters,
   (⌈x_max / bin_dim_meters⌉ : ℚ) * bin_dim_meters,
   (⌊y_min / bin_dim_meters⌋ : ℚ) * bin_dim_meters,
   (⌈y_max / bin_dim_meters⌉ : ℚ) * bin_dim_meters)

/-- Model of `GeoRaster<T, Z>::calculate_bins_and_scales` (GeoRaster.cpp:162-193).
`dist` abstracts `distance_in_meters` (Shared/Utilities.hpp, not under src/);
`null_sentinel` is the value `std::numeric_limits<Z>::lowest()` set by the
constructor's initializer list.  The dense buffer starts as the constant
sentinel function; `compute` below re-initializes it, mirroring the C++
`z_.resize(num_bins_, null_sentinel_)`.  In the planar branch the C++ members
`x_meters_per_degree_` / `y_meters_per_degree_` stay uninitialized; the model
sets them to `0` (no claim reads them in that branch). -/
def calculate_bins_and_scales (dist : ℚ → ℚ → ℚ → ℚ → ℚ)
    (bin_dim_meters : ℚ) (geographic_coords : Bool) (null_sentinel : ℚ)
    (x_min x_max y_min y_max : ℚ) : Raster :=
  let x_range := x_max - x_min
  let y_range := y_max - y_min
  if geographic_coords then
    let x_centroid := (x_min + x_max) * 0.5
    let y_centroid := (y_min + y_max) * 0.5
    let x_meters_per_degree := dist x_min y_centroid x_max y_centroid / x_range
    let y_meters_per_degree := dist x_centroid y_min x_centroid y_max / y_range
    let num_x_bins := ratTrunc (x_range * x_meters_per_degree / bin_dim_meters)
    let num_y_bins := ratTrunc (y_range * y_meters_per_degree / bin_dim_meters)
    { bin_dim_meters := bin_dim_meters
      geographic_coords := geographic_coords
      null_sentinel := null_sentinel
      x_min := x_min, x_max := x_max, y_min := y_min, y_max := y_max
      x_range := x_range, y_range := y_range
      x_meters_per_degree := x_meters_per_degree
      y_meters_per_degree := y_meters_per_degree
      num_x_bins := num_x_bins, num_y_bins := num_y_bins
      num_bins := num_x_bins * num_y_bins
      x_scale_input_to_bin := x_meters_per_degree / bin_dim_meters
      y_scale_input_to_bin := y_meters_per_degree / bin_dim_meters
      x_scale_bin_to_input := bin_dim_meters / x_meters_per_degree
      y_scale_bin_to_input := bin_dim_meters / y_meters_per_degree
      z := fun _ => null_sentinel }
  else
    let num_x_bins := ratTrunc (x_range / bin_dim_meters)
    let num_y_bins := ratTrunc (y_range / bin_dim_meters)
    { bin_dim_meters := bin_dim_meters
      geographic_coords := geographic_coords
      null_sentinel := null_sentinel
      x_min := x_min, x_max := x_max, y_min := y_min, y_max := y_max
      x_range := x_range, y_range := y_range
      x_meters_per_degree := 0
      y_meters_per_degree := 0
      num_x_bins := num_x_bins, num_y_bins := num_y_bins
      num_bins := num_x_bins * num_y_bins
      x_scale_input_to_bin := 1 / bin_dim_meters
      y_scale_input_to_bin := 1 / bin_dim_meters
      x_scale_bin_to_input := bin_dim_meters
      y_scale_bin_to_input := bin_dim_meters
      z := fun _ => null_sentinel }

/-- The body of the aggregation loop in `GeoRaster<T, Z>::compute`
(GeoRaster.cpp:202-214) for one input row: bin the coordinates, `continue` if
either bin index is out of range, then write the row's `z` value iff the row is
non-null and its value is strictly greater than the stored one. -/
def binUpdate (r : Raster) (buf : ℤ → ℚ) (row : InputRow) : ℤ → ℚ :=
  let x_bin := get_x_bin r row.x
  let y_bin := get_y_bin r row.y
  if x_bin < 0 ∨ x_bin ≥ r.num_x_bins ∨ y_bin < 0 ∨ y_bin ≥ r.num_y_bins then
    buf
  else
    let bin_idx := x_y_bin_to_bin_index x_bin y_bin r.num_x_bins
    match row.z with
    | none => buf
    | some zv =>
      if zv > buf bin_idx then (fun j => if j = bin_idx then zv else buf j)
      else buf

/-- Model of `GeoRaster<T, Z>::compute` (GeoRaster.cpp:195-215): resize the dense buffer
to `num_bins` copies of the null sentinel, then run the aggregation loop over
the input rows in order. -/
def compute (r : Raster) (rows : List InputRow) : Raster :=
  { r with z := rows.foldl (binUpdate r) (fun _ => r.null_sentinel) }

/-- The data-derived-bounds constructor `GeoRaster<T, Z>::GeoRaster`
(GeoRaster.cpp:31-68): on empty input set the three bin counts to zero and
return (the C++ leaves the remaining members uninitialized there; the model
zeroes them — no claim reads them in that state); otherwise scan the columns
for min/max, optionally align max-inclusively (planar only), then
`calculate_bins_and_scales` and `compute`. -/
def GeoRaster_data_bounds (dist : ℚ → ℚ → ℚ → ℚ → ℚ) (rows : List InputRow)
    (bin_dim_meters : ℚ) (geographic_coords align_bins_to_zero_based_grid : Bool)
    (null_sentinel : ℚ) : Raster :=
  if (rows.length : ℤ) ≤ 0 then
    { bin_dim_meters := bin_dim_meters
      geographic_coords := geographic_coords
      null_sentinel := null_sentinel
      x_min := 0, x_max := 0, y_min := 0, y_max := 0
      x_range := 0, y_range := 0
      x_meters_per_degree := 0, y_meters_per_degree := 0
      num_x_bins := 0, num_y_bins := 0, num_bins := 0
      x_scale_input_to_bin := 0, y_scale_input_to_bin := 0
      x_scale_bin_to_input := 0, y_scale_bin_to_input := 0
      z := fun _ => null_sentinel }
  else
    let mm_x := get_column_min_max (rows.map InputRow.x)
    let mm_y := get_column_min_max (rows.map InputRow.y)
    let bounds :=
      if align_bins_to_zero_based_grid && !geographic_coords then
        align_bins_max_inclusive bin_dim_meters mm_x.1 mm_x.2 mm_y.1 mm_y.2
      else (mm_x.1, mm_x.2, mm_y.1, mm_y.2)
    let r := calculate_bins_and_scales dist bin_dim_meters geographic_coords
      null_sentinel bounds.1 bounds.2.1 bounds.2.2.1 bounds.2.2.2
    compute r rows

/-- The explicit-bounds constructor `GeoRaster<T, Z>::GeoRaster`
(GeoRaster.cpp:73-103): caller-supplied bounds, optionally aligned
max-exclusively (planar only), then `calculate_bins_and_scales` and `compute`.
Note there is no empty-input early return in this overload. -/
def GeoRaster_explicit_bounds (dist : ℚ → ℚ → ℚ → ℚ → ℚ) (rows : List InputRow)
    (bin_dim_meters : ℚ) (geographic_coords align_bins_to_zero_based_grid : Bool)
    (null_sentinel : ℚ) (x_min x_max y_min y_max : ℚ) : Raster :=
  let bounds :=
    if align_bins_to_zero_based_grid && !geographic_coords then
      align_bins_max_exclusive bin_dim_meters x_min x_max y_min y_max
    else (x_min, x_max, y_min, y_max)
  let r := calculate_bins_and_scales dist bin_dim_meters geographic_coords
    null_sentinel bounds.1 bounds.2.1 bounds.2.2.1 bounds.2.2.2
  compute r rows

/-- Model of `GeoRaster<T, Z>::offset_source_z_from_raster_z` (GeoRaster.cpp:105-117):
null when the source bin is out of range or holds the sentinel, otherwise the
stored value plus the offset. -/
def offset_source_z_from_raster_z (r : Raster)
    (source_x_bin source_y_bin : ℤ) (source_z_offset : ℚ) : ℚ :=
  if is_bin_out_of_bounds r source_x_bin source_y_bin then r.null_sentinel
  else
    let terrain_z := r.z (x_y_bin_to_bin_index source_x_bin source_y_bin r.num_x_bins)
    if terrain_z = r.null_sentinel then terrain_z
    else terrain_z + source_z_offset

/-- Model of `GeoRaster<T, Z>::fill_bin_from_avg_neighbors` (GeoRaster.cpp:119-142):
scan the square window of radius `bins_radius` around the centroid bin (y
outer, x inner), accumulate the sum and count of the in-bounds bins whose value
is not the null sentinel, and return their mean (sentinel when the count is
zero).  The C++ accumulates the sum in the coordinate type `T` and the count in
`int32_t`; both are exact here. -/
def fill_bin_from_avg_neighbors (r : Raster)
    (x_centroid_bin y_centroid_bin bins_radius : ℤ) : ℚ :=
  let acc :=
    (intRangeIncl (y_centroid_bin - bins_radius) (y_centroid_bin + bins_radius)).foldl
      (fun acc y_bin =>
        (intRangeIncl (x_centroid_bin - bins_radius) (x_centroid_bin + bins_radius)).foldl
          (fun (acc : ℚ × ℤ) x_bin =>
            if 0 ≤ x_bin ∧ x_bin < r.num_x_bins ∧ 0 ≤ y_bin ∧ y_bin < r.num_y_bins then
              let bin_val := r.z (x_y_bin_to_bin_index x_bin y_bin r.num_x_bins)
              if bin_val ≠ r.null_sentinel then (acc.1 + bin_val, acc.2 + 1)
              else acc
            else acc)
          acc)
      ((0 : ℚ), (0 : ℤ))
  if acc.2 = 0 then r.null_sentinel else acc.1 / (acc.2 : ℚ)

/-- One output row of the dense emitter: dense bin index, centroid coordinates,
and the emitted `z` cell (`none` = the output cell is left null). -/
structure EmitRow where
  bin_idx : ℤ
  out_x : ℚ
  out_y : ℚ
  out_z : Option ℚ
deriving DecidableEq

/-- The body of the emission loop in `GeoRaster<T, Z>::outputDenseColumns`
(GeoRaster.cpp:226-243) for one `(x_bin, y_bin)` pair: centroid coordinates,
and for the value either the stored one, or — when it is the sentinel — null,
overwritten by the neighborhood average when a nonzero fill radius was given
and the average is itself non-sentinel. -/
def emitBin (r : Raster) (neighborhood_null_fill_radius x_bin y_bin : ℤ) : EmitRow :=
  let bin_idx := x_y_bin_to_bin_index x_bin y_bin r.num_x_bins
  let z_val := r.z bin_idx
  { bin_idx := bin_idx
    out_x := r.x_min + ((x_bin : ℚ) + 0.5) * r.x_scale_bin_to_input
    out_y := r.y_min + ((y_bin : ℚ) + 0.5) * r.y_scale_bin_to_input
    out_z :=
      if z_val = r.null_sentinel then
        if neighborhood_null_fill_radius ≠ 0 then
          let avg_neighbor_value :=
            fill_bin_from_avg_neighbors r x_bin y_bin neighborhood_null_fill_radius
          if avg_neighbor_value ≠ r.null_sentinel then some avg_neighbor_value
          else none
        else none
      else some (r.z bin_idx) }

/-- Model of `GeoRaster<T, Z>::outputDenseColumns` (GeoRaster.cpp:217-246): declare the
output row size as `num_bins`, walk the grid y-outer/x-inner emitting one row
per bin, and return `num_bins`.  The result triple is (declared output row
size, emitted rows in emission order, return value). -/
def outputDenseColumns (r : Raster) (neighborhood_null_fill_radius : ℤ) :
    ℤ × List EmitRow × ℤ :=
  (r.num_bins,
   (intRangeLt r.num_y_bins).flatMap (fun y_bin =>
     (intRangeLt r.num_x_bins).map (fun x_bin =>
       emitBin r neighborhood_null_fill_radius x_bin y_bin)),
   r.num_bins)

/-! ### Analysis definitions (not part of the source; used to state claims) -/

/-- The effect a row can have in the aggregation loop: `none` when the loop
skips it (bin out of range, or null `z`), otherwise the dense bin index it
lands in together with its value. -/
def rowTarget (r : Raster) (row : InputRow) : Option (ℤ × ℚ) :=
  let x_bin := get_x_bin r row.x
  let y_bin := get_y_bin r row.y
  if x_bin < 0 ∨ x_bin ≥ r.num_x_bins ∨ y_bin < 0 ∨ y_bin ≥ r.num_y_bins then none
  else
    match row.z with
    | none => none
    | some zv => some (x_y_bin_to_bin_index x_bin y_bin r.num_x_bins, zv)

/-- The values of the rows that contribute to dense bin `j`, in input order. -/
def contributing_values (r : Raster) (rows : List InputRow) (j : ℤ) : List ℚ :=
  rows.filterMap (fun row =>
    match rowTarget r row with
    | some (i, v) => if i = j then some v else none
    | none => none)

/-- What one window cell contributes to the neighborhood average: `none` when
the bin is outside the grid or holds the null sentinel, otherwise its value. -/
def neighborProbe (r : Raster) (x_bin y_bin : ℤ) : Option ℚ :=
  if 0 ≤ x_bin ∧ x_bin < r.num_x_bins ∧ 0 ≤ y_bin ∧ y_bin < r.num_y_bins then
    let bin_val := r.z (x_y_bin_to_bin_index x_bin y_bin r.num_x_bins)
    if bin_val ≠ r.null_sentinel then some bin_val else none
  else none

/-- The non-sentinel values inspected by `fill_bin_from_avg_neighbors`: the
stored values of the bins of the radius-`bins_radius` square window around the
centroid bin, clipped to the grid, whose value is not the null sentinel, in
scan order. -/
def neighborVals (r : Raster) (x_centroid_bin y_centroid_bin bins_radius : ℤ) :
    List ℚ :=
  (intRangeIncl (y_centroid_bin - bins_radius) (y_centroid_bin + bins_radius)).flatMap
    (fun y_bin =>
      (intRangeIncl (x_centroid_bin - bins_radius) (x_centroid_bin + bins_radius)).filterMap
        (fun x_bin => neighborProbe r x_bin y_bin))

/-- The dense indices at which the aggregation loop reads or writes the `z`
buffer (one per row that passes the bin-range guard). -/
def compute_touched_bins (r : Raster) (rows : List InputRow) : List ℤ :=
  rows.filterMap (fun row =>
    let x_bin := get_x_bin r row.x
    let y_bin := get_y_bin r row.y
    if x_bin < 0 ∨ x_bin ≥ r.num_x_bins ∨ y_bin < 0 ∨ y_bin ≥ r.num_y_bins then none
    else some (x_y_bin_to_bin_index x_bin y_bin r.num_x_bins))

/-- The dense indices at which `fill_bin_from_avg_neighbors` reads the `z`
buffer (the in-bounds bins of the scan window). -/
def fill_touched_bins (r : Raster) (x_centroid_bin y_centroid_bin bins_radius : ℤ) :
    List ℤ :=
  (intRangeIncl (y_centroid_bin - bins_radius) (y_centroid_bin + bins_radius)).flatMap
    (fun y_bin =>
      (intRangeIncl (x_centroid_bin - bins_radius) (x_centroid_bin + bins_radius)).filterMap
        (fun x_bin =>
          if 0 ≤ x_bin ∧ x_bin < r.num_x_bins ∧ 0 ≤ y_bin ∧ y_bin < r.num_y_bins then
            some (x_y_bin_to_bin_index x_bin y_bin r.num_x_bins)
          else none))

/-- The dense indices at which the emission loop reads the `z` buffer and
writes the output columns. -/
def output_touched_bins (r : Raster) : List ℤ :=
  (intRangeLt r.num_y_bins).flatMap (fun y_bin =>
    (intRangeLt r.num_x_bins).map (fun x_bin =>
      x_y_bin_to_bin_index x_bin y_bin r.num_x_bins))

/-- Modelled from the spec: the error taxonomy entry "InvalidDomain: degenerate
or inverted bounds (`max <= min` on either axis) or non-positive
`bin_dim_meters`; must be rejected before scale computation".  The validation
itself lives in the table-function entry points that invoke GeoRaster
(GeoRasterTableFunctions, not under src/). -/
inductive RasterError where
  | InvalidDomain
deriving DecidableEq

/-- Modelled from the spec: explicit-bounds construction guarded by the
InvalidDomain validation, which "must be rejected before scale computation" —
on rejection no raster state is produced at all. -/
def checked_GeoRaster_explicit_bounds (dist : ℚ → ℚ → ℚ → ℚ → ℚ)
    (rows : List InputRow) (bin_dim_meters : ℚ)
    (geographic_coords align_bins_to_zero_based_grid : Bool)
    (null_sentinel : ℚ) (x_min x_max y_min y_max : ℚ) :
    Except RasterError Raster :=
  if x_max ≤ x_min ∨ y_max ≤ y_min ∨ bin_dim_meters ≤ 0 then
    Except.error RasterError.InvalidDomain
  else
    Except.ok (GeoRaster_explicit_bounds dist rows bin_dim_meters
      geographic_coords align_bins_to_zero_based_grid null_sentinel
      x_min x_max y_min y_max)

/-- Modelled from the spec: data-derived-bounds construction guarded by the
InvalidDomain validation (empty input stays the valid zero-bin state, per the
spec's EmptyInput taxonomy entry; otherwise the data-derived domain and
`bin_dim_meters` are validated before any scale computation). -/
def checked_GeoRaster_data_bounds (dist : ℚ → ℚ → ℚ → ℚ → ℚ)
    (rows : List InputRow) (bin_dim_meters : ℚ)
    (geographic_coords align_bins_to_zero_based_grid : Bool)
    (null_sentinel : ℚ) : Except RasterError Raster :=
  if (rows.length : ℤ) ≤ 0 then
    Except.ok (GeoRaster_data_bounds dist rows bin_dim_meters geographic_coords
      align_bins_to_zero_based_grid null_sentinel)
  else
    let mm_x := get_column_min_max (rows.map InputRow.x)
    let mm_y := get_column_min_max (rows.map InputRow.y)
    if mm_x.2 ≤ mm_x.1 ∨ mm_y.2 ≤ mm_y.1 ∨ bin_dim_meters ≤ 0 then
      Except.error RasterError.InvalidDomain
    else
      Except.ok (GeoRaster_data_bounds dist rows bin_dim_meters
        geographic_coords align_bins_to_zero_based_grid null_sentinel)

/-- A trivial stand-in for `distance_in_meters`, used for concrete planar
instances (the planar branch never calls it). -/
def distZero : ℚ → ℚ → ℚ → ℚ → ℚ := fun _ _ _ _ => 0

/-- Two concrete input rows landing in the same bin with values 3 and 7. -/
def exampleRows : List InputRow := [⟨5, 5, some 3⟩, ⟨6, 4, some 7⟩]

/-- A concrete planar grid: `bin_dim_meters = 10` over `[0, 40] × [0, 40]`,
giving a 4 × 4 grid. -/
def exampleScales : Raster :=
  calculate_bins_and_scales distZero 10 false (-1000) 0 40 0 40

/-- The concrete grid aggregated over `exampleRows`. -/
def exampleRaster : Raster := compute exampleScales exampleRows

/-! ### Helper lemmas -/

theorem mem_intRangeIncl {a b j : ℤ} : j ∈ intRangeIncl a b ↔ a ≤ j ∧ j ≤ b := by
  unfold intRangeIncl
  rw [List.mem_map]
  constructor
  · rintro ⟨k, hk, rfl⟩
    rw [List.mem_range] at hk
    omega
  · rintro ⟨h1, h2⟩
    refine ⟨(j - a).toNat, ?_, ?_⟩
    · rw [List.mem_range]; omega
    · omega

theorem mem_intRangeLt {n j : ℤ} : j ∈ intRangeLt n ↔ 0 ≤ j ∧ j < n := by
  unfold intRangeLt
  rw [List.mem_map]
  constructor
  · rintro ⟨k, hk, rfl⟩
    rw [List.mem_range] at hk
    omega
  · rintro ⟨h1, h2⟩
    refine ⟨j.toNat, ?_, ?_⟩
    · rw [List.mem_range]; omega
    · omega

theorem le_foldl_max (b : ℚ) (L : List ℚ) : b ≤ L.foldl max b := by
  induction L generalizing b with
  | nil => exact le_refl b
  | cons a rest ih => exact le_trans (le_max_left b a) (ih (max b a))

theorem mem_le_foldl_max {v : ℚ} {L : List ℚ} (h : v ∈ L) (b : ℚ) :
    v ≤ L.foldl max b := by
  induction L generalizing b with
  | nil => cases h
  | cons a rest ih =>
    rcases List.mem_cons.mp h with rfl | hm
    · exact le_trans (le_max_right b v) (le_foldl_max _ _)
    · exact ih hm _

theorem foldl_max_eq_init_or_mem (b : ℚ) (L : List ℚ) :
    L.foldl max b = b ∨ L.foldl max b ∈ L := by
  induction L generalizing b with
  | nil => exact Or.inl rfl
  | cons a rest ih =>
    rw [List.foldl_cons]
    rcases ih (max b a) with h | h
    · rcases max_choice b a with hm | hm
      · exact Or.inl (h.trans hm)
      · exact Or.inr (List.mem_cons.mpr (Or.inl (h.trans hm)))
    · exact Or.inr (List.mem_cons.mpr (Or.inr h))

theorem binUpdate_of_rowTarget_none (r : Raster) (buf : ℤ → ℚ) (row : InputRow)
    (h : rowTarget r row = none) : binUpdate r buf row = buf := by
  simp only [rowTarget] at h
  simp only [binUpdate]
  by_cases hguard : get_x_bin r row.x < 0 ∨ get_x_bin r row.x ≥ r.num_x_bins ∨
      get_y_bin r row.y < 0 ∨ get_y_bin r row.y ≥ r.num_y_bins
  · rw [if_pos hguard]
  · rw [if_neg hguard]
    rw [if_neg hguard] at h
    cases hz : row.z with
    | none => rfl
    | some zv => rw [hz] at h; cases h

theorem binUpdate_of_rowTarget_some (r : Raster) (buf : ℤ → ℚ) (row : InputRow)
    {i : ℤ} {v : ℚ} (h : rowTarget r row = some (i, v)) (j : ℤ) :
    binUpdate r buf row j = if i = j then max (buf j) v else buf j := by
  simp only [rowTarget] at h
  simp only [binUpdate]
  by_cases hguard : get_x_bin r row.x < 0 ∨ get_x_bin r row.x ≥ r.num_x_bins ∨
      get_y_bin r row.y < 0 ∨ get_y_bin r row.y ≥ r.num_y_bins
  · rw [if_pos hguard] at h
    cases h
  · rw [if_neg hguard] at h
    rw [if_neg hguard]
    cases hz : row.z with
    | none => rw [hz] at h; cases h
    | some zv =>
      rw [hz] at h
      simp only [Option.some.injEq, Prod.mk.injEq] at h
      obtain ⟨hi, hv⟩ := h
      subst hv
      subst hi
      simp only []
      set idx := x_y_bin_to_bin_index (get_x_bin r row.x) (get_y_bin r row.y) r.num_x_bins
        with hidx
      by_cases hj : idx = j
      · subst hj
        by_cases hlt : zv > buf idx
        · simp [hlt, max_eq_right (le_of_lt hlt)]
        · simp [hlt, max_eq_left (not_lt.mp hlt)]
      · by_cases hlt : zv > buf idx
        · simp [hlt, hj, Ne.symm hj]
        · simp [hlt, hj]

theorem foldl_binUpdate_apply (r : Raster) (rows : List InputRow) (buf : ℤ → ℚ) (j : ℤ) :
    (rows.foldl (binUpdate r) buf) j =
      (contributing_values r rows j).foldl max (buf j) := by
  induction rows generalizing buf with
  | nil => rfl
  | cons row rest ih =>
    rw [List.foldl_cons, ih]
    unfold contributing_values
    rw [List.filterMap_cons]
    cases ht : rowTarget r row with
    | none =>
      rw [binUpdate_of_rowTarget_none r buf row ht]
    | some iv =>
      obtain ⟨i, v⟩ := iv
      rw [binUpdate_of_rowTarget_some r buf row ht j]
      by_cases hij : i = j
      · subst hij
        simp
      · simp [hij]

theorem compute_z_apply (r : Raster) (rows : List InputRow) (j : ℤ) :
    (compute r rows).z j =
      (contributing_values r rows j).foldl max r.null_sentinel := by
  unfold compute
  exact foldl_binUpdate_apply r rows _ j

theorem range_flatMap_row_major (nx ny : ℕ) :
    (List.range ny).flatMap (fun y => (List.range nx).map (fun x => x + y * nx)) =
      List.range (nx * ny) := by
  induction ny with
  | zero => simp
  | succ n ih =>
    rw [List.range_succ, List.flatMap_append, ih]
    simp only [List.flatMap_cons, List.flatMap_nil, List.append_nil]
    rw [Nat.mul_succ, List.range_add]
    congr 1
    apply List.map_congr_left
    intro x _
    ring

theorem intRange_flatMap_row_major {nx ny : ℤ} (hx : 0 ≤ nx) (hy : 0 ≤ ny) :
    (intRangeLt ny).flatMap (fun y => (intRangeLt nx).map (fun x => x + y * nx)) =
      intRangeLt (nx * ny) := by
  lift nx to ℕ using hx with a
  lift ny to ℕ using hy with b
  unfold intRangeLt
  rw [show ((a : ℤ) * (b : ℤ)) = ((a * b : ℕ) : ℤ) by push_cast; ring]
  rw [Int.toNat_natCast, Int.toNat_natCast, Int.toNat_natCast]
  rw [List.flatMap_map]
  have inner : ∀ k : ℕ,
      (List.map (fun x : ℕ => (x : ℤ)) (List.range a)).map (fun x => x + (k : ℤ) * (a : ℤ)) =
        List.map (fun x : ℕ => (x : ℤ)) (List.map (fun x => x + k * a) (List.range a)) := by
    intro k
    rw [List.map_map, List.map_map]
    apply List.map_congr_left
    intro x _
    simp only [Function.comp_apply]
    push_cast
    ring
  simp only [inner]
  rw [← List.map_flatMap]
  rw [range_flatMap_row_major a b]

theorem bin_index_range {x_bin y_bin nx ny : ℤ} (hx0 : 0 ≤ x_bin) (hx : x_bin < nx)
    (hy0 : 0 ≤ y_bin) (hy : y_bin < ny) :
    0 ≤ x_y_bin_to_bin_index x_bin y_bin nx ∧
      x_y_bin_to_bin_index x_bin y_bin nx < nx * ny := by
  unfold x_y_bin_to_bin_index
  constructor
  · nlinarith
  · nlinarith

theorem foldl_sum_count {α : Type} (g : α → Option ℚ) (l : List α) (s : ℚ) (c : ℤ) :
    l.foldl (fun acc x =>
        match g x with
        | some v => (acc.1 + v, acc.2 + 1)
        | none => acc) ((s, c) : ℚ × ℤ) =
      (s + (l.filterMap g).sum, c + ((l.filterMap g).length : ℤ)) := by
  induction l generalizing s c with
  | nil => simp
  | cons a rest ih =>
    rw [List.foldl_cons, List.filterMap_cons]
    cases hg : g a with
    | none =>
      simp only [hg]
      exact ih s c
    | some v =>
      simp only [hg]
      rw [ih]
      rw [List.sum_cons, List.length_cons]
      push_cast
      exact Prod.ext (by ring) (by ring)

theorem foldl_foldl_sum_count {α β : Type} (g : β → α → Option ℚ) (xs : List α)
    (ys : List β) (s : ℚ) (c : ℤ) :
    ys.foldl (fun acc y => xs.foldl (fun acc x =>
        match g y x with
        | some v => (acc.1 + v, acc.2 + 1)
        | none => acc) acc) ((s, c) : ℚ × ℤ) =
      (s + (ys.flatMap (fun y => xs.filterMap (g y))).sum,
       c + ((ys.flatMap (fun y => xs.filterMap (g y))).length : ℤ)) := by
  induction ys generalizing s c with
  | nil => simp
  | cons y rest ih =>
    rw [List.foldl_cons, foldl_sum_count, List.flatMap_cons]
    rw [ih]
    rw [List.sum_append, List.length_append]
    push_cast
    exact Prod.ext (by ring) (by ring)

theorem fill_eq_neighborVals (r : Raster) (xc yc rad : ℤ) :
    fill_bin_from_avg_neighbors r xc yc rad =
      if neighborVals r xc yc rad = [] then r.null_sentinel
      else (neighborVals r xc yc rad).sum / ((neighborVals r xc yc rad).length : ℚ) := by
  unfold fill_bin_from_avg_neighbors neighborVals
  have hstep : ∀ y_bin : ℤ,
      (fun (acc : ℚ × ℤ) (x_bin : ℤ) =>
        if 0 ≤ x_bin ∧ x_bin < r.num_x_bins ∧ 0 ≤ y_bin ∧ y_bin < r.num_y_bins then
          let bin_val := r.z (x_y_bin_to_bin_index x_bin y_bin r.num_x_bins)
          if bin_val ≠ r.null_sentinel then (acc.1 + bin_val, acc.2 + 1)
          else acc
        else acc) =
      (fun (acc : ℚ × ℤ) (x_bin : ℤ) =>
        match neighborProbe r x_bin y_bin with
        | some v => (acc.1 + v, acc.2 + 1)
        | none => acc) := by
    intro y_bin
    funext acc x_bin
    unfold neighborProbe
    by_cases hb : 0 ≤ x_bin ∧ x_bin < r.num_x_bins ∧ 0 ≤ y_bin ∧ y_bin < r.num_y_bins
    · rw [if_pos hb, if_pos hb]
      by_cases hv : r.z (x_y_bin_to_bin_index x_bin y_bin r.num_x_bins) ≠ r.null_sentinel
      · rw [if_pos hv, if_pos hv]
      · rw [if_neg hv, if_neg hv]
    · rw [if_neg hb, if_neg hb]
  simp only [hstep]
  rw [foldl_foldl_sum_count (fun y x => neighborProbe r x y)]
  set L := (intRangeIncl (yc - rad) (yc + rad)).flatMap
      (fun y_bin => (intRangeIncl (xc - rad) (xc + rad)).filterMap
        (fun x_bin => neighborProbe r x_bin y_bin)) with hdefL
  simp only [zero_add]
  by_cases hL : L = []
  · rw [if_pos hL, hL]
    simp
  · have hlen : ((L.length : ℤ)) ≠ 0 := by
      intro h
      exact hL (List.length_eq_zero.mp (by omega))
    rw [if_neg hL, if_neg hlen]
    push_cast
    rfl

/-! ### Claim theorems -/

theorem rowTarget_some_z (r : Raster) (row : InputRow) {i : ℤ} {v : ℚ}
    (h : rowTarget r row = some (i, v)) : row.z = some v := by
  simp only [rowTarget] at h
  by_cases hguard : get_x_bin r row.x < 0 ∨ get_x_bin r row.x ≥ r.num_x_bins ∨
      get_y_bin r row.y < 0 ∨ get_y_bin r row.y ≥ r.num_y_bins
  · rw [if_pos hguard] at h
    cases h
  · rw [if_neg hguard] at h
    cases hz : row.z with
    | none => rw [hz] at h; cases h
    | some zv =>
      rw [hz] at h
      simp only [Option.some.injEq, Prod.mk.injEq] at h
      rw [h.2]

theorem mem_contributing_values {r : Raster} {rows : List InputRow} {j : ℤ} {v : ℚ}
    (h : v ∈ contributing_values r rows j) : ∃ row ∈ rows, row.z = some v := by
  unfold contributing_values at h
  rw [List.mem_filterMap] at h
  obtain ⟨row, hrow, hv⟩ := h
  refine ⟨row, hrow, ?_⟩
  cases ht : rowTarget r row with
  | none => rw [ht] at hv; cases hv
  | some iv =>
    obtain ⟨i, v'⟩ := iv
    rw [ht] at hv
    have hv' : (if i = j then some v' else none) = some v := hv
    by_cases hij : i = j
    · rw [if_pos hij] at hv'
      cases hv'
      exact rowTarget_some_z r row ht
    · rw [if_neg hij] at hv'
      cases hv'

/-- C1: after aggregation every bin with no contributing row holds the null
sentinel; every bin with contributing rows holds their maximum (it is one of
the contributed values and an upper bound of all of them, given that every
input value is at least the sentinel, as every representable C++ value is);
and a row that is skipped (bin out of range, or null `z`) has no effect on the
buffer.  Together: each bin of the dense buffer holds the maximum of the
non-null in-range values binned to it, or the sentinel when there are none. -/
theorem claim_C1_scatter_max (r : Raster) (rows : List InputRow)
    (hs : ∀ row ∈ rows, ∀ v : ℚ, row.z = some v → r.null_sentinel ≤ v) :
    (∀ j : ℤ, contributing_values r rows j = [] →
      (compute r rows).z j = r.null_sentinel) ∧
    (∀ j : ℤ, contributing_values r rows j ≠ [] →
      (compute r rows).z j ∈ contributing_values r rows j ∧
      ∀ v ∈ contributing_values r rows j, v ≤ (compute r rows).z j) ∧
    (∀ row : InputRow, rowTarget r row = none →
      (compute r (rows ++ [row])).z = (compute r rows).z) := by
  refine ⟨?_, ?_, ?_⟩
  · intro j hempty
    rw [compute_z_apply, hempty]
    rfl
  · intro j hne
    have hub : ∀ v ∈ contributing_values r rows j, v ≤ (compute r rows).z j := by
      intro v hv
      rw [compute_z_apply]
      exact mem_le_foldl_max hv _
    refine ⟨?_, hub⟩
    rw [compute_z_apply]
    rcases foldl_max_eq_init_or_mem r.null_sentinel (contributing_values r rows j) with h | h
    · obtain ⟨v0, hv0⟩ := List.exists_mem_of_ne_nil _ hne
      obtain ⟨row, hrow, hz⟩ := mem_contributing_values hv0
      have h1 : r.null_sentinel ≤ v0 := hs row hrow v0 hz
      have h2 : v0 ≤ (contributing_values r rows j).foldl max r.null_sentinel :=
        mem_le_foldl_max hv0 _
      have hv0sent : v0 = r.null_sentinel := le_antisymm (h ▸ h2) h1
      rw [h, ← hv0sent]
      exact hv0
    · exact h
  · intro row ht
    funext j
    unfold compute
    simp only [List.foldl_append, List.foldl_cons, List.foldl_nil]
    rw [binUpdate_of_rowTarget_none r _ row ht]

/-- C7: aggregation is invariant under permutation of the input rows. -/
theorem claim_C7_order_independence (r : Raster) (rows1 rows2 : List InputRow)
    (h : rows1.Perm rows2) : (compute r rows1).z = (compute r rows2).z := by
  funext j
  rw [compute_z_apply, compute_z_apply]
  have hperm := h.filterMap (fun row =>
    match rowTarget r row with
    | some (i, v) => if i = j then some v else none
    | none => none)
  exact hperm.foldl_eq'
    (fun x _ y _ b => by rw [max_assoc, max_comm x y, ← max_assoc]) _


theorem claim_C1_scatter_max_witness :
    (∀ row ∈ exampleRows, ∀ v : ℚ, row.z = some v → exampleScales.null_sentinel ≤ v) ∧
    (compute exampleScales exampleRows).z 0 = 7 ∧
    ((compute exampleScales exampleRows).z 0 ∈ contributing_values exampleScales exampleRows 0 ∧
      ∀ v ∈ contributing_values exampleScales exampleRows 0,
        v ≤ (compute exampleScales exampleRows).z 0) := by
  have hs : ∀ row ∈ exampleRows, ∀ v : ℚ, row.z = some v → exampleScales.null_sentinel ≤ v := by
    norm_num [exampleRows, exampleScales, calculate_bins_and_scales]
  have hval : contributing_values exampleScales exampleRows 0 = [3, 7] := by
    norm_num [contributing_values, rowTarget, exampleRows, exampleScales,
      calculate_bins_and_scales, distZero, ratTrunc, get_x_bin, get_y_bin,
      x_y_bin_to_bin_index, List.filterMap_cons]
  have hne : contributing_values exampleScales exampleRows 0 ≠ [] := by
    rw [hval]
    exact List.cons_ne_nil _ _
  refine ⟨hs, ?_, (claim_C1_scatter_max exampleScales exampleRows hs).2.1 0 hne⟩
  norm_num [compute, binUpdate, exampleRows, exampleScales, calculate_bins_and_scales,
    distZero, ratTrunc, get_x_bin, get_y_bin, x_y_bin_to_bin_index]

theorem claim_C7_order_independence_witness :
    (([⟨5, 5, some 3⟩, ⟨6, 4, some 7⟩] : List InputRow)).Perm
        [⟨6, 4, some 7⟩, ⟨5, 5, some 3⟩] ∧
    (compute exampleScales [⟨5, 5, some 3⟩, ⟨6, 4, some 7⟩]).z =
      (compute exampleScales [⟨6, 4, some 7⟩, ⟨5, 5, some 3⟩]).z :=
  ⟨List.Perm.swap _ _ _,
   claim_C7_order_independence exampleScales _ _ (List.Perm.swap _ _ _)⟩


/-- C2: planar alignment formulas and their consequence on the [0, 40] domain
with bin_dim_meters = 10: data-derived (max-inclusive) alignment yields bounds
[0, 50) and 5 bins per axis; explicit-bounds (max-exclusive) alignment yields
bounds [0, 40) and 4 bins per axis. -/
theorem claim_C2_bin_alignment :
    (∀ d x0 x1 y0 y1 : ℚ, align_bins_max_inclusive d x0 x1 y0 y1 =
      ((⌊x0 / d⌋ : ℚ) * d, (⌊x1 / d⌋ : ℚ) * d + d,
       (⌊y0 / d⌋ : ℚ) * d, (⌊y1 / d⌋ : ℚ) * d + d)) ∧
    (∀ d x0 x1 y0 y1 : ℚ, align_bins_max_exclusive d x0 x1 y0 y1 =
      ((⌊x0 / d⌋ : ℚ) * d, (⌈x1 / d⌉ : ℚ) * d,
       (⌊y0 / d⌋ : ℚ) * d, (⌈y1 / d⌉ : ℚ) * d)) ∧
    ((GeoRaster_data_bounds distZero [⟨0, 0, some 1⟩, ⟨40, 40, some 1⟩]
        10 false true (-1000)).x_min = 0 ∧
     (GeoRaster_data_bounds distZero [⟨0, 0, some 1⟩, ⟨40, 40, some 1⟩]
        10 false true (-1000)).x_max = 50 ∧
     (GeoRaster_data_bounds distZero [⟨0, 0, some 1⟩, ⟨40, 40, some 1⟩]
        10 false true (-1000)).num_x_bins = 5 ∧
     (GeoRaster_data_bounds distZero [⟨0, 0, some 1⟩, ⟨40, 40, some 1⟩]
        10 false true (-1000)).y_min = 0 ∧
     (GeoRaster_data_bounds distZero [⟨0, 0, some 1⟩, ⟨40, 40, some 1⟩]
        10 false true (-1000)).y_max = 50 ∧
     (GeoRaster_data_bounds distZero [⟨0, 0, some 1⟩, ⟨40, 40, some 1⟩]
        10 false true (-1000)).num_y_bins = 5) ∧
    ((GeoRaster_explicit_bounds distZero [] 10 false true (-1000) 0 40 0 40).x_min = 0 ∧
     (GeoRaster_explicit_bounds distZero [] 10 false true (-1000) 0 40 0 40).x_max = 40 ∧
     (GeoRaster_explicit_bounds distZero [] 10 false true (-1000) 0 40 0 40).num_x_bins = 4 ∧
     (GeoRaster_explicit_bounds distZero [] 10 false true (-1000) 0 40 0 40).y_min = 0 ∧
     (GeoRaster_explicit_bounds distZero [] 10 false true (-1000) 0 40 0 40).y_max = 40 ∧
     (GeoRaster_explicit_bounds distZero [] 10 false true (-1000) 0 40 0 40).num_y_bins = 4) := by
  refine ⟨fun d x0 x1 y0 y1 => rfl, fun d x0 x1 y0 y1 => rfl, ?_, ?_⟩
  · refine ⟨?_, ?_, ?_, ?_, ?_, ?_⟩ <;>
      norm_num [GeoRaster_data_bounds, get_column_min_max, align_bins_max_inclusive,
        calculate_bins_and_scales, compute, ratTrunc]
  · refine ⟨?_, ?_, ?_, ?_, ?_, ?_⟩ <;>
      norm_num [GeoRaster_explicit_bounds, align_bins_max_exclusive,
        calculate_bins_and_scales, compute, ratTrunc]

/-- C4 counterexample: the claimed equivalence "num_bins == 0 iff zero input
rows" fails in both directions: the explicit-bounds constructor with zero
input rows yields a 16-bin raster, and the data-derived constructor on one row
with alignment disabled yields a zero-bin raster. -/
theorem claim_C4_counterexample :
    (GeoRaster_explicit_bounds distZero [] 10 false false (-1000) 0 40 0 40).num_bins = 16 ∧
    (GeoRaster_data_bounds distZero [⟨5, 5, some 1⟩] 10 false false (-1000)).num_bins = 0 := by
  constructor <;>
    norm_num [GeoRaster_explicit_bounds, GeoRaster_data_bounds, get_column_min_max,
      calculate_bins_and_scales, compute, ratTrunc]

/-- C4 amended: the data-derived constructor maps zero input rows to a
zero-bin raster in which the buffer is untouched (all null sentinel) and
emission declares zero rows, emits nothing and returns 0; the explicit-bounds
constructor derives its bin counts from the supplied bounds alone, so its
`num_bins` does not depend on the input rows (in particular it need not be 0
on empty input), and `num_bins = 0` can also occur with nonzero input rows. -/
theorem claim_C4_empty_input (dist : ℚ → ℚ → ℚ → ℚ → ℚ) (d : ℚ) (geo align : Bool)
    (sent : ℚ) (f : ℤ) (rows : List InputRow) (x0 x1 y0 y1 : ℚ) :
    (GeoRaster_data_bounds dist [] d geo align sent).num_bins = 0 ∧
    (GeoRaster_data_bounds dist [] d geo align sent).z = (fun _ => sent) ∧
    (outputDenseColumns (GeoRaster_data_bounds dist [] d geo align sent) f).1 = 0 ∧
    (outputDenseColumns (GeoRaster_data_bounds dist [] d geo align sent) f).2.1 = [] ∧
    (outputDenseColumns (GeoRaster_data_bounds dist [] d geo align sent) f).2.2 = 0 ∧
    (GeoRaster_explicit_bounds dist rows d geo align sent x0 x1 y0 y1).num_bins =
      (GeoRaster_explicit_bounds dist [] d geo align sent x0 x1 y0 y1).num_bins := by
  refine ⟨?_, ?_, ?_, ?_, ?_, rfl⟩ <;>
    norm_num [GeoRaster_data_bounds, outputDenseColumns, intRangeLt]

/-- C3 (validation modelled from the spec): construction through the
InvalidDomain guard rejects a degenerate or inverted domain or non-positive
bin_dim_meters with an error and produces no raster state; for data-derived
bounds the guard applies to the scanned min/max of a nonempty input. -/
theorem claim_C3_invalid_domain (dist : ℚ → ℚ → ℚ → ℚ → ℚ) (rows : List InputRow)
    (d : ℚ) (geo align : Bool) (sent x0 x1 y0 y1 : ℚ)
    (hbad : x1 ≤ x0 ∨ y1 ≤ y0 ∨ d ≤ 0) :
    checked_GeoRaster_explicit_bounds dist rows d geo align sent x0 x1 y0 y1 =
      Except.error RasterError.InvalidDomain ∧
    (∀ rows2 : List InputRow, rows2 ≠ [] →
      ((get_column_min_max (rows2.map InputRow.x)).2 ≤
          (get_column_min_max (rows2.map InputRow.x)).1 ∨
       (get_column_min_max (rows2.map InputRow.y)).2 ≤
          (get_column_min_max (rows2.map InputRow.y)).1 ∨
       d ≤ 0) →
      checked_GeoRaster_data_bounds dist rows2 d geo align sent =
        Except.error RasterError.InvalidDomain) := by
  constructor
  · unfold checked_GeoRaster_explicit_bounds
    rw [if_pos hbad]
  · intro rows2 hne hbad2
    have hpos : 0 < rows2.length := List.length_pos.mpr hne
    unfold checked_GeoRaster_data_bounds
    rw [if_neg (by omega)]
    rw [if_pos hbad2]

/-- Witness for C3 at a concrete degenerate domain (`x_max = x_min = 0`) and a
concrete one-point input whose derived domain is degenerate. -/
theorem claim_C3_invalid_domain_witness :
    checked_GeoRaster_explicit_bounds distZero [] 10 false false (-1000) 0 0 0 10 =
      Except.error RasterError.InvalidDomain ∧
    checked_GeoRaster_data_bounds distZero [⟨5, 5, some 1⟩] 10 false false (-1000) =
      Except.error RasterError.InvalidDomain := by
  have h := claim_C3_invalid_domain distZero [] 10 false false (-1000) 0 0 0 10
    (Or.inl le_rfl)
  refine ⟨h.1, h.2 [⟨5, 5, some 1⟩] (by simp) ?_⟩
  norm_num [get_column_min_max]


theorem calculate_num_bins_eq (dist : ℚ → ℚ → ℚ → ℚ → ℚ) (d : ℚ) (geo : Bool)
    (sent a b c e : ℚ) :
    (calculate_bins_and_scales dist d geo sent a b c e).num_bins =
      (calculate_bins_and_scales dist d geo sent a b c e).num_x_bins *
        (calculate_bins_and_scales dist d geo sent a b c e).num_y_bins := by
  unfold calculate_bins_and_scales
  cases geo <;> simp

/-- C9: in every constructed raster `num_bins = num_x_bins * num_y_bins`, and
whenever that product identity holds, every dense index the aggregator, the
averager, or the emitter uses to access the `z` buffer lies in
`[0, num_bins)`. -/
theorem claim_C9_grid_invariants :
    (∀ (dist : ℚ → ℚ → ℚ → ℚ → ℚ) (rows : List InputRow) (d : ℚ) (geo align : Bool)
        (sent : ℚ),
      (GeoRaster_data_bounds dist rows d geo align sent).num_bins =
        (GeoRaster_data_bounds dist rows d geo align sent).num_x_bins *
          (GeoRaster_data_bounds dist rows d geo align sent).num_y_bins) ∧
    (∀ (dist : ℚ → ℚ → ℚ → ℚ → ℚ) (rows : List InputRow) (d : ℚ) (geo align : Bool)
        (sent x0 x1 y0 y1 : ℚ),
      (GeoRaster_explicit_bounds dist rows d geo align sent x0 x1 y0 y1).num_bins =
        (GeoRaster_explicit_bounds dist rows d geo align sent x0 x1 y0 y1).num_x_bins *
          (GeoRaster_explicit_bounds dist rows d geo align sent x0 x1 y0 y1).num_y_bins) ∧
    (∀ r : Raster, r.num_bins = r.num_x_bins * r.num_y_bins →
      (∀ (rows : List InputRow) (j : ℤ), j ∈ compute_touched_bins r rows →
        0 ≤ j ∧ j < r.num_bins) ∧
      (∀ (xc yc rad j : ℤ), j ∈ fill_touched_bins r xc yc rad →
        0 ≤ j ∧ j < r.num_bins) ∧
      (∀ j : ℤ, j ∈ output_touched_bins r → 0 ≤ j ∧ j < r.num_bins)) := by
  refine ⟨?_, ?_, ?_⟩
  · intro dist rows d geo align sent
    unfold GeoRaster_data_bounds
    by_cases hlen : ((rows.length : ℤ)) ≤ 0
    · rw [if_pos hlen]
      rfl
    · rw [if_neg hlen]
      exact calculate_num_bins_eq dist d geo sent _ _ _ _
  · intro dist rows d geo align sent x0 x1 y0 y1
    exact calculate_num_bins_eq dist d geo sent _ _ _ _
  · intro r hnb
    refine ⟨?_, ?_, ?_⟩
    · intro rows j hj
      unfold compute_touched_bins at hj
      rw [List.mem_filterMap] at hj
      obtain ⟨row, _, hrow⟩ := hj
      by_cases hguard : get_x_bin r row.x < 0 ∨ get_x_bin r row.x ≥ r.num_x_bins ∨
          get_y_bin r row.y < 0 ∨ get_y_bin r row.y ≥ r.num_y_bins
      · rw [if_pos hguard] at hrow
        cases hrow
      · rw [if_neg hguard] at hrow
        push_neg at hguard
        obtain ⟨h1, h2, h3, h4⟩ := hguard
        cases hrow
        rw [hnb]
        exact bin_index_range (not_lt.mp (by omega)) (by omega) (by omega) (by omega)
    · intro xc yc rad j hj
      unfold fill_touched_bins at hj
      rw [List.mem_flatMap] at hj
      obtain ⟨y_bin, _, hmem⟩ := hj
      rw [List.mem_filterMap] at hmem
      obtain ⟨x_bin, _, hx⟩ := hmem
      by_cases hb : 0 ≤ x_bin ∧ x_bin < r.num_x_bins ∧ 0 ≤ y_bin ∧ y_bin < r.num_y_bins
      · rw [if_pos hb] at hx
        cases hx
        rw [hnb]
        exact bin_index_range hb.1 hb.2.1 hb.2.2.1 hb.2.2.2
      · rw [if_neg hb] at hx
        cases hx
    · intro j hj
      unfold output_touched_bins at hj
      rw [List.mem_flatMap] at hj
      obtain ⟨y_bin, hy, hmem⟩ := hj
      rw [List.mem_map] at hmem
      obtain ⟨x_bin, hx, rfl⟩ := hmem
      rw [mem_intRangeLt] at hx hy
      rw [hnb]
      exact bin_index_range hx.1 hx.2 hy.1 hy.2

/-- Witness for C9 on concrete rasters and a concrete touched index. -/
theorem claim_C9_grid_invariants_witness :
    (GeoRaster_data_bounds distZero exampleRows 10 false false (-1000)).num_bins =
      (GeoRaster_data_bounds distZero exampleRows 10 false false (-1000)).num_x_bins *
        (GeoRaster_data_bounds distZero exampleRows 10 false false (-1000)).num_y_bins ∧
    (0 ≤ (5 : ℤ) ∧ (5 : ℤ) < exampleScales.num_bins) := by
  constructor
  · exact claim_C9_grid_invariants.1 distZero exampleRows 10 false false (-1000)
  · refine (claim_C9_grid_invariants.2.2 exampleScales ?_).2.2 5 ?_
    · norm_num [exampleScales, calculate_bins_and_scales, ratTrunc]
    · have h4x : exampleScales.num_x_bins = 4 := by
        norm_num [exampleScales, calculate_bins_and_scales, ratTrunc]
      have h4y : exampleScales.num_y_bins = 4 := by
        norm_num [exampleScales, calculate_bins_and_scales, ratTrunc]
      unfold output_touched_bins
      rw [List.mem_flatMap]
      refine ⟨1, mem_intRangeLt.mpr ⟨by norm_num, by rw [h4y]; norm_num⟩, ?_⟩
      rw [List.mem_map]
      refine ⟨1, mem_intRangeLt.mpr ⟨by norm_num, by rw [h4x]; norm_num⟩, ?_⟩
      rw [x_y_bin_to_bin_index, h4x]
      norm_num


/-- C5: the dense emitter declares exactly `num_bins` output rows before
writing and returns `num_bins`; the emitted rows cover exactly the dense
indices `0, 1, ..., num_bins - 1` in order (row-major, x fastest, one row per
bin index, assigned `x_bin + y_bin * num_x_bins`); and every emitted row
carries the centroid coordinates of its bin. -/
theorem claim_C5_dense_emission (r : Raster) (f : ℤ)
    (hnb : r.num_bins = r.num_x_bins * r.num_y_bins)
    (hx : 0 ≤ r.num_x_bins) (hy : 0 ≤ r.num_y_bins) :
    (outputDenseColumns r f).1 = r.num_bins ∧
    (outputDenseColumns r f).2.2 = r.num_bins ∧
    ((outputDenseColumns r f).2.1).map EmitRow.bin_idx = intRangeLt r.num_bins ∧
    (∀ e ∈ (outputDenseColumns r f).2.1, ∃ x_bin y_bin : ℤ,
      0 ≤ x_bin ∧ x_bin < r.num_x_bins ∧ 0 ≤ y_bin ∧ y_bin < r.num_y_bins ∧
      e.bin_idx = x_y_bin_to_bin_index x_bin y_bin r.num_x_bins ∧
      e.out_x = r.x_min + ((x_bin : ℚ) + 0.5) * r.x_scale_bin_to_input ∧
      e.out_y = r.y_min + ((y_bin : ℚ) + 0.5) * r.y_scale_bin_to_input) := by
  refine ⟨rfl, rfl, ?_, ?_⟩
  · unfold outputDenseColumns
    simp only [List.map_flatMap, List.map_map]
    have hcomp : ∀ y_bin : ℤ,
        (EmitRow.bin_idx ∘ fun x_bin => emitBin r f x_bin y_bin) =
          fun x_bin => x_bin + y_bin * r.num_x_bins := by
      intro y_bin
      funext x_bin
      rfl
    simp only [hcomp]
    rw [hnb]
    exact intRange_flatMap_row_major hx hy
  · intro e he
    unfold outputDenseColumns at he
    simp only [] at he
    rw [List.mem_flatMap] at he
    obtain ⟨y_bin, hy_mem, he⟩ := he
    rw [List.mem_map] at he
    obtain ⟨x_bin, hx_mem, rfl⟩ := he
    rw [mem_intRangeLt] at hx_mem hy_mem
    exact ⟨x_bin, y_bin, hx_mem.1, hx_mem.2, hy_mem.1, hy_mem.2, rfl, rfl, rfl⟩

/-- Witness for C5 on the concrete 4 × 4 grid. -/
theorem claim_C5_dense_emission_witness :
    (outputDenseColumns exampleRaster 0).1 = exampleRaster.num_bins ∧
    (outputDenseColumns exampleRaster 0).2.2 = exampleRaster.num_bins ∧
    ((outputDenseColumns exampleRaster 0).2.1).map EmitRow.bin_idx =
      intRangeLt exampleRaster.num_bins := by
  have h := claim_C5_dense_emission exampleRaster 0
    (by norm_num [exampleRaster, exampleScales, compute, calculate_bins_and_scales, ratTrunc])
    (by norm_num [exampleRaster, exampleScales, compute, calculate_bins_and_scales, ratTrunc])
    (by norm_num [exampleRaster, exampleScales, compute, calculate_bins_and_scales, ratTrunc])
  exact ⟨h.1, h.2.1, h.2.2.1⟩


/-- C6: for radius at least 1 the averager returns the arithmetic mean of the
non-null values of the clipped square window (the null sentinel when there are
none); during emission a non-null bin is emitted directly, a null bin with a
nonzero radius is emitted as the averager result when that is non-null and
stays null otherwise, and with radius 0 a null bin stays null. -/
theorem claim_C6_neighborhood_fill (r : Raster) (xc yc rad : ℤ) (hrad : 1 ≤ rad) :
    (fill_bin_from_avg_neighbors r xc yc rad =
      if neighborVals r xc yc rad = [] then r.null_sentinel
      else (neighborVals r xc yc rad).sum / ((neighborVals r xc yc rad).length : ℚ)) ∧
    (∀ x_bin y_bin : ℤ,
      (r.z (x_y_bin_to_bin_index x_bin y_bin r.num_x_bins) ≠ r.null_sentinel →
        (emitBin r rad x_bin y_bin).out_z =
          some (r.z (x_y_bin_to_bin_index x_bin y_bin r.num_x_bins))) ∧
      (r.z (x_y_bin_to_bin_index x_bin y_bin r.num_x_bins) = r.null_sentinel →
        (emitBin r rad x_bin y_bin).out_z =
          (if fill_bin_from_avg_neighbors r x_bin y_bin rad ≠ r.null_sentinel
           then some (fill_bin_from_avg_neighbors r x_bin y_bin rad) else none)) ∧
      (r.z (x_y_bin_to_bin_index x_bin y_bin r.num_x_bins) = r.null_sentinel →
        (emitBin r 0 x_bin y_bin).out_z = none)) := by
  refine ⟨fill_eq_neighborVals r xc yc rad, ?_⟩
  intro x_bin y_bin
  refine ⟨?_, ?_, ?_⟩
  · intro hz
    simp only [emitBin]
    rw [if_neg hz]
  · intro hz
    simp only [emitBin]
    rw [if_pos hz, if_pos (show rad ≠ 0 by omega)]
  · intro hz
    simp only [emitBin]
    rw [if_pos hz]
    simp

/-- Witness for C6 at radius 1 on the concrete grid. -/
theorem claim_C6_neighborhood_fill_witness :
    fill_bin_from_avg_neighbors exampleRaster 2 2 1 =
      (if neighborVals exampleRaster 2 2 1 = [] then exampleRaster.null_sentinel
       else (neighborVals exampleRaster 2 2 1).sum /
         ((neighborVals exampleRaster 2 2 1).length : ℚ)) ∧
    (exampleRaster.z (x_y_bin_to_bin_index 0 0 exampleRaster.num_x_bins) ≠
        exampleRaster.null_sentinel →
      (emitBin exampleRaster 1 0 0).out_z =
        some (exampleRaster.z (x_y_bin_to_bin_index 0 0 exampleRaster.num_x_bins))) := by
  have h := claim_C6_neighborhood_fill exampleRaster 2 2 1 (by decide)
  exact ⟨h.1, (h.2 0 0).1⟩

theorem floor_centroid_round_trip {s t mn : ℚ} (h : s * t = 1) (i : ℤ) :
    ⌊(mn + ((i : ℚ) + 0.5) * t - mn) * s⌋ = i := by
  have heq : (mn + ((i : ℚ) + 0.5) * t - mn) * s = (i : ℚ) + 0.5 := by
    have ht : t * s = 1 := by rw [mul_comm]; exact h
    calc (mn + ((i : ℚ) + 0.5) * t - mn) * s = ((i : ℚ) + 0.5) * (t * s) := by ring
    _ = (i : ℚ) + 0.5 := by rw [ht, mul_one]
  rw [heq, Int.floor_int_add]
  norm_num

/-- C8: for a raster produced by the bounds/scale calculator with positive
`bin_dim_meters` (and, in the geographic branch, nonzero meters-per-degree
factors), the input-to-bin and bin-to-output scale factors of each axis are
exact mutual inverses, and mapping any bin index to its centroid coordinate
and back through `get_x_bin` / `get_y_bin` returns the same index. -/
theorem claim_C8_scale_round_trip (dist : ℚ → ℚ → ℚ → ℚ → ℚ) (d : ℚ) (geo : Bool)
    (sent a b c e : ℚ) (r : Raster)
    (hr : r = calculate_bins_and_scales dist d geo sent a b c e)
    (hd : 0 < d)
    (hmx : geo = true → r.x_meters_per_degree ≠ 0)
    (hmy : geo = true → r.y_meters_per_degree ≠ 0) :
    (r.x_scale_input_to_bin * r.x_scale_bin_to_input = 1 ∧
     r.y_scale_input_to_bin * r.y_scale_bin_to_input = 1) ∧
    (∀ i : ℤ, 0 ≤ i → i < r.num_x_bins →
      get_x_bin r (r.x_min + ((i : ℚ) + 0.5) * r.x_scale_bin_to_input) = i) ∧
    (∀ i : ℤ, 0 ≤ i → i < r.num_y_bins →
      get_y_bin r (r.y_min + ((i : ℚ) + 0.5) * r.y_scale_bin_to_input) = i) := by
  have hprod : r.x_scale_input_to_bin * r.x_scale_bin_to_input = 1 ∧
      r.y_scale_input_to_bin * r.y_scale_bin_to_input = 1 := by
    cases geo with
    | false =>
      subst hr
      unfold calculate_bins_and_scales
      simp only [Bool.false_eq_true, if_false]
      constructor <;> field_simp
    | true =>
      have hmx1 := hmx rfl
      have hmy1 := hmy rfl
      subst hr
      unfold calculate_bins_and_scales at hmx1 hmy1 ⊢
      simp only [if_true] at hmx1 hmy1 ⊢
      have hDx : dist a ((c + e) * 0.5) b ((c + e) * 0.5) ≠ 0 := by
        intro h0
        exact hmx1 (by rw [h0, zero_div])
      have hbax : b - a ≠ 0 := by
        intro h0
        exact hmx1 (by rw [h0, div_zero])
      have hDy : dist ((a + b) * 0.5) c ((a + b) * 0.5) e ≠ 0 := by
        intro h0
        exact hmy1 (by rw [h0, zero_div])
      have hbay : e - c ≠ 0 := by
        intro h0
        exact hmy1 (by rw [h0, div_zero])
      constructor
      · field_simp [hDx, hbax]
        ring
      · field_simp [hDy, hbay]
        ring
  refine ⟨hprod, ?_, ?_⟩
  · intro i _ _
    unfold get_x_bin
    exact floor_centroid_round_trip hprod.1 i
  · intro i _ _
    unfold get_y_bin
    exact floor_centroid_round_trip hprod.2 i

/-- Witness for C8 on the concrete planar grid, round-tripping bin index 2. -/
theorem claim_C8_scale_round_trip_witness :
    (exampleScales.x_scale_input_to_bin * exampleScales.x_scale_bin_to_input = 1 ∧
     exampleScales.y_scale_input_to_bin * exampleScales.y_scale_bin_to_input = 1) ∧
    get_x_bin exampleScales
      (exampleScales.x_min + ((2 : ℚ) + 0.5) * exampleScales.x_scale_bin_to_input) = 2 := by
  have h := claim_C8_scale_round_trip distZero 10 false (-1000) 0 40 0 40 exampleScales
    rfl (by norm_num) (fun hgeo => absurd hgeo (by decide)) (fun hgeo => absurd hgeo (by decide))
  refine ⟨h.1, h.2.1 2 (by decide) ?_⟩
  norm_num [exampleScales, calculate_bins_and_scales, ratTrunc]

/-- C10: the averager window includes the target bin itself: when the target
bin is inside the grid and holds a non-null value, that value is among the
values scanned by `fill_bin_from_avg_neighbors`, and the returned average is
the mean of a window that counts it (the function does not exclude the
target bin). -/
theorem claim_C10_window_includes_target (r : Raster) (xc yc rad : ℤ)
    (hrad : 0 ≤ rad) (hx0 : 0 ≤ xc) (hx1 : xc < r.num_x_bins)
    (hy0 : 0 ≤ yc) (hy1 : yc < r.num_y_bins)
    (hz : r.z (x_y_bin_to_bin_index xc yc r.num_x_bins) ≠ r.null_sentinel) :
    r.z (x_y_bin_to_bin_index xc yc r.num_x_bins) ∈ neighborVals r xc yc rad ∧
    fill_bin_from_avg_neighbors r xc yc rad =
      (neighborVals r xc yc rad).sum / ((neighborVals r xc yc rad).length : ℚ) := by
  have hmem : r.z (x_y_bin_to_bin_index xc yc r.num_x_bins) ∈ neighborVals r xc yc rad := by
    unfold neighborVals
    rw [List.mem_flatMap]
    refine ⟨yc, mem_intRangeIncl.mpr ⟨by omega, by omega⟩, ?_⟩
    rw [List.mem_filterMap]
    refine ⟨xc, mem_intRangeIncl.mpr ⟨by omega, by omega⟩, ?_⟩
    unfold neighborProbe
    rw [if_pos ⟨hx0, hx1, hy0, hy1⟩]
    simp only []
    rw [if_pos hz]
  refine ⟨hmem, ?_⟩
  rw [fill_eq_neighborVals]
  rw [if_neg (List.ne_nil_of_mem hmem)]

/-- Witness for C10: bin (0, 0) of the concrete grid holds 7 and is counted in
its own radius-1 window. -/
theorem claim_C10_window_includes_target_witness :
    exampleRaster.z (x_y_bin_to_bin_index 0 0 exampleRaster.num_x_bins) ∈
      neighborVals exampleRaster 0 0 1 ∧
    fill_bin_from_avg_neighbors exampleRaster 0 0 1 =
      (neighborVals exampleRaster 0 0 1).sum /
        ((neighborVals exampleRaster 0 0 1).length : ℚ) := by
  refine claim_C10_window_includes_target exampleRaster 0 0 1 (by decide) (by decide) ?_
    (by decide) ?_ ?_
  · norm_num [exampleRaster, exampleScales, compute, calculate_bins_and_scales, ratTrunc]
  · norm_num [exampleRaster, exampleScales, compute, calculate_bins_and_scales, ratTrunc]
  · norm_num [exampleRaster, exampleScales, compute, binUpdate, calculate_bins_and_scales,
      ratTrunc, distZero, get_x_bin, get_y_bin, x_y_bin_to_bin_index, exampleRows]

end GeoRaster
